import Mathlib

/-!
Shallow embedding of the pagination-and-normalization core of the
react-agent-sample repository, together with theorems settling the spec
claims about it.

Embedded source files:
  * `src/clients/base.py`   — `APIResponse`, `BaseAPIClient._make_request`
  * `src/clients/tiktok/client.py` — `get_hashtag_info`,
    `get_hashtag_posts_page`, `get_hashtag_posts`
  * `src/clients/tiktok/models.py` — the response shapes these functions
    inspect (`PaginatedResult`, `TikTokAPIResponse`, `HashtagPostsData`,
    `HashtagPostsResponse`).

Modelling conventions:
  * Python ints are `Int`; list lengths are `Nat` and are cast where the
    source compares them with ints.
  * Fallible operations (network calls, pydantic decoding) are modelled by
    `Option` results and by explicit outcome types; `except Exception`
    handlers become `match` arms.
  * Video records are opaque to all of the embedded control flow, so the
    record type is a type parameter `α`.
-/

namespace ReactAgentSample

/-! ## Transport layer: `src/clients/base.py` -/

/-- The parsed JSON body of an HTTP response, restricted to the only part
`_make_request` inspects: the value stored under the `"message"` key.
`message = none` models a body with no `"message"` key;
`message = some none` models `{"message": null}`;
`message = some (some s)` models `{"message": "s"}`.
(Bodies whose `"message"` value is neither null nor a string are outside
this model.) -/
structure BodyDict where
  message : Option (Option String)
deriving Repr, DecidableEq

/-- What `_make_request` can observe of one HTTP request attempt:
`httpx.RequestError` (transport failure), any other exception raised inside
the `try` block (e.g. a body that fails JSON parsing), or a response that
arrived.  For an arrived response, `body = none` models
`response.content` being empty (so `response_data = {}`); `body = some b`
models a parsed JSON body. -/
inductive RequestOutcome where
  | requestError (detail : String)
  | otherError (detail : String)
  | response (is_success : Bool) (status_code : Int) (body : Option BodyDict)
deriving Repr, DecidableEq

/-- `APIResponse` from `src/clients/base.py`:
`{success: bool, data: Optional[Dict], error: Optional[str],
status_code: Optional[int]}`. -/
structure APIResponse where
  success : Bool
  data : Option BodyDict := none
  error : Option String := none
  status_code : Option Int := none
deriving Repr, DecidableEq

/-- `BaseAPIClient._make_request` (base.py lines 43-76), as a function of
the outcome of the underlying `httpx` call.  In the response branch,
`response_data` is the parsed body if any content was returned, else `{}`;
`error` is `None` when `response.is_success`, otherwise
`response_data.get("message", "API request failed")` — note that Python's
`dict.get` returns the stored value even when that value is `None`. -/
def _make_request : RequestOutcome → APIResponse
  | .requestError detail =>
      { success := false, error := some ("Request failed: " ++ detail),
        status_code := none }
  | .otherError detail =>
      { success := false, error := some ("Unexpected error: " ++ detail),
        status_code := none }
  | .response is_success status_code body =>
      let response_data : BodyDict := body.getD { message := none }
      { success := is_success
        data := some response_data
        status_code := some status_code
        error :=
          if is_success then none
          else
            match response_data.message with
            | none => some "API request failed"
            | some v => v }

/-- Does the outcome carry a parsed body whose `"message"` key is
explicitly null (`{"message": null}`)?  This is the one shape on which
`_make_request` produces a failure envelope with a null `error`. -/
def RequestOutcome.hasNullMessage : RequestOutcome → Prop
  | .response _ _ (some b) => b.message = some none
  | _ => False

instance : DecidablePred RequestOutcome.hasNullMessage := by
  intro o
  unfold RequestOutcome.hasNullMessage
  match o with
  | .requestError _ => exact inferInstanceAs (Decidable False)
  | .otherError _ => exact inferInstanceAs (Decidable False)
  | .response _ _ none => exact inferInstanceAs (Decidable False)
  | .response _ _ (some b) => exact inferInstanceAs (Decidable (_ = _))

/-! ## Domain client: `src/clients/tiktok/client.py` and `models.py`

The client functions consume an `APIResponse` through exactly two
observations: `response.success` and the truthiness of `response.data`
(an empty dict is falsy in Python), after which they attempt to decode
`response.data` with a pydantic constructor that may raise.  We embed that
view as `APIEnvelope β`, with `data = none` covering both `data is None`
and a falsy (empty) dict, and `β` the decodable content of a non-empty
body.  Decoding is a function into `DecodeResult`, whose `exn` arm models
a raised validation exception (caught by the client's `except Exception`).
-/

/-- The client-side view of an `APIResponse`: its `success` flag and its
`data` field, with `none` modelling a `None` or falsy (empty-dict) body. -/
structure APIEnvelope (β : Type) where
  success : Bool
  data : Option β
deriving Repr, DecidableEq

/-- Outcome of a pydantic model constructor applied to a decoded body:
either a parsed value or a raised validation exception. -/
inductive DecodeResult (β : Type) where
  | ok (v : β)
  | exn
deriving Repr, DecidableEq

/-- `HashtagPostsData` from `models.py`: `{videos, cursor, hasMore}`.
Video records are opaque to the control flow, hence the parameter `α`. -/
structure HashtagPostsData (α : Type) where
  videos : List α
  cursor : Int
  hasMore : Bool
deriving Repr, DecidableEq

/-- `HashtagPostsResponse` from `models.py`: result `code` and optional
inner payload (its `msg`/`processed_time` fields are never read by the
embedded control flow).  `data = none` models `data is None`; a present
pydantic model instance is always truthy. -/
structure HashtagPostsResponse (α : Type) where
  code : Int
  data : Option (HashtagPostsData α)
deriving Repr, DecidableEq

/-- `TikTokAPIResponse` from `models.py`: result `code` and optional
`data` dict, with `none` covering both `data is None` and a falsy (empty)
dict, since `get_hashtag_info` tests `not tiktok_response.data`. -/
structure TikTokAPIResponse (γ : Type) where
  code : Int
  data : Option γ
deriving Repr, DecidableEq

/-- `PaginatedResult` from `models.py`:
`{videos, cursor, has_more, total_fetched}`. -/
structure PaginatedResult (α : Type) where
  videos : List α
  cursor : Int
  has_more : Bool
  total_fetched : Nat
deriving Repr, DecidableEq

/-- `TikTokClient.get_hashtag_info` (client.py lines 29-61), from the
`_make_request` envelope on.  `decodeOuter` models
`TikTokAPIResponse(**response.data)` and `decodeInfo` models
`HashtagInfo(**tiktok_response.data)`; either may raise, and the source's
`except Exception: return None` absorbs the exception. -/
def get_hashtag_info {β γ ι : Type} (response : APIEnvelope β)
    (decodeOuter : β → DecodeResult (TikTokAPIResponse γ))
    (decodeInfo : γ → DecodeResult ι) : Option ι :=
  if !response.success then none
  else
    match response.data with
    | none => none
    | some body =>
      match decodeOuter body with
      | .exn => none
      | .ok tiktok_response =>
        if tiktok_response.code ≠ 0 then none
        else
          match tiktok_response.data with
          | none => none
          | some d =>
            match decodeInfo d with
            | .exn => none
            | .ok info => some info

/-- `TikTokClient.get_hashtag_posts_page` (client.py lines 82-122).
`request` stands for `_make_request` applied to the posts endpoint, as a
function of the `count` and `cursor` query parameters; `decode` models
`HashtagPostsResponse(**response.data)`.  The source first clamps the
caller's `count` with `count = min(count, 20)` (line 96) and then issues
the request with the clamped value.  The second component of the returned
pair is instrumentation: the `count` actually sent upstream. -/
def get_hashtag_posts_page {α β : Type} (request : Int → Int → APIEnvelope β)
    (decode : β → DecodeResult (HashtagPostsResponse α))
    (count cursor : Int) : Option (PaginatedResult α) × Int :=
  let sent := min count 20
  let response := request sent cursor
  let result : Option (PaginatedResult α) :=
    if !response.success then none
    else
      match response.data with
      | none => none
      | some body =>
        match decode body with
        | .exn => none
        | .ok posts_response =>
          if posts_response.code ≠ 0 then none
          else
            match posts_response.data with
            | none => none
            | some d =>
              some { videos := d.videos, cursor := d.cursor,
                     has_more := d.hasMore, total_fetched := d.videos.length }
  (result, sent)

/-! ## Pagination loop: `TikTokClient.get_hashtag_posts` (client.py 124-169)

The `while` loop is embedded as a fuel-indexed structural recursion over an
explicit state.  The loop body increments `pages_fetched` on every
iteration that continues, and the loop guard requires
`pages_fetched < max_pages`, so `max_pages.toNat` fuel is always enough;
`fetchLoop_fuel_irrelevant` below proves that adding fuel beyond that
bound never changes the result, i.e. that the fuel-indexed function agrees
with the unbounded `while` loop.

The fields `all_videos`, `cursor` and `pages_fetched` mirror the source's
local variables.  `calls` and `merged` are instrumentation only: `calls`
counts invocations of the page operation, and `merged` records each merged
page's video list in arrival order.  Neither is read by the loop. -/

/-- The local state of the `get_hashtag_posts` accumulation loop, plus the
two observational fields `calls` and `merged` described above. -/
structure LoopState (α : Type) where
  all_videos : List α
  cursor : Int
  pages_fetched : Nat
  calls : Nat
  merged : List (List α)
deriving Repr, DecidableEq

/-- The state update of lines 153-155 of client.py
(`all_videos.extend(...)`, `cursor = page_result.cursor`,
`pages_fetched += 1`), together with the two instrumentation fields. -/
def LoopState.mergePage {α : Type} (st : LoopState α)
    (page_result : PaginatedResult α) : LoopState α :=
  { all_videos := st.all_videos ++ page_result.videos
    cursor := page_result.cursor
    pages_fetched := st.pages_fetched + 1
    calls := st.calls + 1
    merged := st.merged ++ [page_result.videos] }

/-- One source-faithful unfolding of the `while` loop of
`get_hashtag_posts` (client.py lines 141-159), indexed by fuel.  `pageOp`
stands for `self.get_hashtag_posts_page` as a function of `count` and
`cursor`; `not page_result or not page_result.videos` becomes the `none`
and empty-list arms. -/
def fetchLoop {α : Type} (pageOp : Int → Int → Option (PaginatedResult α))
    (target_count max_pages : Int) :
    Nat → LoopState α → LoopState α
  | 0, st => st
  | fuel + 1, st =>
    if (st.all_videos.length : Int) < target_count ∧
        (st.pages_fetched : Int) < max_pages then
      let remaining : Int := target_count - st.all_videos.length
      let page_size : Int := min 20 remaining
      match pageOp page_size st.cursor with
      | none => { st with calls := st.calls + 1 }
      | some page_result =>
        if page_result.videos.isEmpty then { st with calls := st.calls + 1 }
        else
          let st' : LoopState α := st.mergePage page_result
          if page_result.has_more then
            fetchLoop pageOp target_count max_pages fuel st'
          else st'
    else st

/-- The loop of `get_hashtag_posts` run from the initial state
`all_videos = [], cursor = 0, pages_fetched = 0` with enough fuel for its
page cap. -/
def runLoop {α : Type} (pageOp : Int → Int → Option (PaginatedResult α))
    (target_count max_pages : Int) : LoopState α :=
  fetchLoop pageOp target_count max_pages max_pages.toNat
    { all_videos := [], cursor := 0, pages_fetched := 0, calls := 0,
      merged := [] }

/-- `TikTokClient.get_hashtag_posts` (client.py lines 124-169): run the
loop, return `None` when nothing was collected, otherwise the accumulated
`PaginatedResult` with
`has_more = pages_fetched < max_pages and len(all_videos) >= target_count`
(line 167). -/
def get_hashtag_posts {α : Type}
    (pageOp : Int → Int → Option (PaginatedResult α))
    (target_count max_pages : Int) : Option (PaginatedResult α) :=
  let st := runLoop pageOp target_count max_pages
  if st.all_videos.isEmpty then none
  else
    some { videos := st.all_videos
           cursor := st.cursor
           has_more := decide ((st.pages_fetched : Int) < max_pages) &&
             decide (target_count ≤ (st.all_videos.length : Int))
           total_fetched := st.all_videos.length }

/-! ## Concrete page operations used to evaluate the loop -/

/-- An upstream that answers every page request with a single record and
`has_more = true`. -/
def onePageOp : Int → Int → Option (PaginatedResult Nat) :=
  fun _ _ =>
    some { videos := [0], cursor := 5, has_more := true, total_fetched := 1 }

/-- An upstream that never returns a page. -/
def nonePageOp : Int → Int → Option (PaginatedResult Nat) :=
  fun _ _ => none

/-- The spec's 50-record scenario upstream, keyed by cursor: pages of 20,
20 and 10 records, the third carrying `has_more = false`. -/
def scenarioPageOp : Int → Int → Option (PaginatedResult Nat) :=
  fun _ cursor =>
    if cursor = 0 then
      some { videos := List.range 20, cursor := 1, has_more := true,
             total_fetched := 20 }
    else if cursor = 1 then
      some { videos := (List.range 20).map (20 + ·), cursor := 2,
             has_more := true, total_fetched := 20 }
    else if cursor = 2 then
      some { videos := (List.range 10).map (40 + ·), cursor := 3,
             has_more := false, total_fetched := 10 }
    else none

/-- Projection of `LoopState.mergePage`: the accumulated list. -/
@[simp] theorem LoopState.mergePage_all_videos {α : Type} (st : LoopState α)
    (p : PaginatedResult α) :
    (st.mergePage p).all_videos = st.all_videos ++ p.videos := rfl

/-- Projection of `LoopState.mergePage`: the cursor. -/
@[simp] theorem LoopState.mergePage_cursor {α : Type} (st : LoopState α)
    (p : PaginatedResult α) : (st.mergePage p).cursor = p.cursor := rfl

/-- Projection of `LoopState.mergePage`: the page counter. -/
@[simp] theorem LoopState.mergePage_pages {α : Type} (st : LoopState α)
    (p : PaginatedResult α) :
    (st.mergePage p).pages_fetched = st.pages_fetched + 1 := rfl

/-- Projection of `LoopState.mergePage`: the call counter. -/
@[simp] theorem LoopState.mergePage_calls {α : Type} (st : LoopState α)
    (p : PaginatedResult α) : (st.mergePage p).calls = st.calls + 1 := rfl

/-- Projection of `LoopState.mergePage`: the merged-page trace. -/
@[simp] theorem LoopState.mergePage_merged {α : Type} (st : LoopState α)
    (p : PaginatedResult α) :
    (st.mergePage p).merged = st.merged ++ [p.videos] := rfl

/-- Faithfulness of the fuel bound: once the fuel covers the remaining
iteration budget `max_pages - pages_fetched`, adding more fuel cannot
change the result, because every continuing iteration increments
`pages_fetched` and the loop guard requires `pages_fetched < max_pages`.
Hence `runLoop`, which supplies `max_pages.toNat` fuel from
`pages_fetched = 0`, computes exactly the source's unbounded `while`
loop. -/
theorem fetchLoop_fuel_irrelevant {α : Type}
    (pageOp : Int → Int → Option (PaginatedResult α))
    (target_count max_pages : Int) :
    ∀ (fuel : Nat) (st : LoopState α),
      max_pages ≤ (st.pages_fetched : Int) + fuel →
      ∀ extra : Nat,
        fetchLoop pageOp target_count max_pages (fuel + extra) st =
          fetchLoop pageOp target_count max_pages fuel st := by
  intro fuel
  induction fuel with
  | zero =>
    intro st hst extra
    rw [Nat.zero_add]
    cases extra with
    | zero => rfl
    | succ e =>
      have hguard : ¬((st.all_videos.length : Int) < target_count ∧
          (st.pages_fetched : Int) < max_pages) := by
        rintro ⟨-, hlt⟩
        simp only [Nat.cast_zero, add_zero] at hst
        omega
      simp only [fetchLoop]
      rw [if_neg hguard]
  | succ f ih =>
    intro st hst extra
    have harith : f + 1 + extra = (f + extra) + 1 := by omega
    rw [harith]
    by_cases hc : (st.all_videos.length : Int) < target_count ∧
        (st.pages_fetched : Int) < max_pages
    · simp only [fetchLoop]
      rw [if_pos hc, if_pos hc]
      cases hpage : pageOp (min 20 (target_count - (st.all_videos.length : Int)))
          st.cursor with
      | none => simp only [hpage]
      | some page_result =>
        simp only [hpage]
        by_cases hempty : page_result.videos.isEmpty = true
        · simp only [hempty, if_true]
        · simp only [hempty, if_false]
          by_cases hmore : page_result.has_more = true
          · simp only [hmore, if_true]
            apply ih
            rw [LoopState.mergePage_pages]
            push_cast
            push_cast at hst
            omega
          · simp only [hmore]
            rfl
    · simp only [fetchLoop]
      rw [if_neg hc, if_neg hc]

/-- When the loop guard already fails, the loop returns its state
unchanged, whatever the fuel. -/
theorem fetchLoop_guard_false {α : Type}
    (pageOp : Int → Int → Option (PaginatedResult α))
    (target_count max_pages : Int) (fuel : Nat) (st : LoopState α)
    (h : ¬((st.all_videos.length : Int) < target_count ∧
          (st.pages_fetched : Int) < max_pages)) :
    fetchLoop pageOp target_count max_pages fuel st = st := by
  cases fuel with
  | zero => rfl
  | succ f =>
    simp only [fetchLoop]
    rw [if_neg h]

/-- Exhaustive description of one unfolding of the loop at positive fuel:
either the guard fails and the state is returned, or one page call is made
and the iteration stops on a missing/empty page, stops after merging a
page with `has_more = false`, or merges and continues. -/
theorem fetchLoop_succ_spec {α : Type}
    (pageOp : Int → Int → Option (PaginatedResult α))
    (target_count max_pages : Int) (f : Nat) (st : LoopState α) :
    (¬((st.all_videos.length : Int) < target_count ∧
        (st.pages_fetched : Int) < max_pages) ∧
      fetchLoop pageOp target_count max_pages (f + 1) st = st) ∨
    (((st.all_videos.length : Int) < target_count ∧
        (st.pages_fetched : Int) < max_pages) ∧
      (((pageOp (min 20 (target_count - st.all_videos.length)) st.cursor =
            none ∨
          ∃ p, pageOp (min 20 (target_count - st.all_videos.length))
              st.cursor = some p ∧ p.videos.isEmpty = true) ∧
        fetchLoop pageOp target_count max_pages (f + 1) st =
          { st with calls := st.calls + 1 }) ∨
       (∃ p, pageOp (min 20 (target_count - st.all_videos.length)) st.cursor =
            some p ∧ p.videos.isEmpty = false ∧
         ((p.has_more = true ∧
            fetchLoop pageOp target_count max_pages (f + 1) st =
              fetchLoop pageOp target_count max_pages f (st.mergePage p)) ∨
          (p.has_more = false ∧
            fetchLoop pageOp target_count max_pages (f + 1) st =
              st.mergePage p))))) := by
  by_cases hc : (st.all_videos.length : Int) < target_count ∧
      (st.pages_fetched : Int) < max_pages
  · right
    refine ⟨hc, ?_⟩
    cases hpage : pageOp (min 20 (target_count - (st.all_videos.length : Int)))
        st.cursor with
    | none =>
      left
      refine ⟨Or.inl rfl, ?_⟩
      simp only [fetchLoop]
      rw [if_pos hc]
      simp only [hpage]
    | some p =>
      cases hempty : p.videos.isEmpty with
      | true =>
        left
        refine ⟨Or.inr ⟨p, rfl, hempty⟩, ?_⟩
        simp only [fetchLoop]
        rw [if_pos hc]
        simp only [hpage, hempty, if_true]
      | false =>
        right
        refine ⟨p, rfl, hempty, ?_⟩
        cases hmore : p.has_more with
        | true =>
          left
          refine ⟨rfl, ?_⟩
          simp only [fetchLoop]
          rw [if_pos hc]
          simp only [hpage, hempty, hmore, if_true]
          rfl
        | false =>
          right
          refine ⟨rfl, ?_⟩
          simp only [fetchLoop]
          rw [if_pos hc]
          simp only [hpage, hempty, hmore]
          rfl
  · exact Or.inl ⟨hc, fetchLoop_guard_false pageOp target_count max_pages
      (f + 1) st hc⟩

/-- Each loop iteration makes exactly one page call before either stopping
or recursing, so the final call count is bounded by the starting count
plus the fuel. -/
theorem fetchLoop_calls_le {α : Type}
    (pageOp : Int → Int → Option (PaginatedResult α))
    (target_count max_pages : Int) :
    ∀ (fuel : Nat) (st : LoopState α),
      (fetchLoop pageOp target_count max_pages fuel st).calls ≤
        st.calls + fuel := by
  intro fuel
  induction fuel with
  | zero => intro st; exact Nat.le_of_eq rfl
  | succ f ih =>
    intro st
    rcases fetchLoop_succ_spec pageOp target_count max_pages f st with
      ⟨-, heq⟩ | ⟨-, ⟨-, heq⟩ | ⟨p, -, -, ⟨-, heq⟩ | ⟨-, heq⟩⟩⟩
    · rw [heq]; omega
    · rw [heq]
      have hcalls : ({ st with calls := st.calls + 1 } : LoopState α).calls =
        st.calls + 1 := rfl
      omega
    · rw [heq]
      have h1 := ih (st.mergePage p)
      rw [LoopState.mergePage_calls] at h1
      omega
    · rw [heq]
      rw [LoopState.mergePage_calls]
      omega

/-- The accumulated video list is always the concatenation, in arrival
order, of the merged pages' video lists: the loop preserves the invariant
`all_videos = merged.join`. -/
theorem fetchLoop_join_invariant {α : Type}
    (pageOp : Int → Int → Option (PaginatedResult α))
    (target_count max_pages : Int) :
    ∀ (fuel : Nat) (st : LoopState α),
      st.all_videos = st.merged.flatten →
      (fetchLoop pageOp target_count max_pages fuel st).all_videos =
        (fetchLoop pageOp target_count max_pages fuel st).merged.flatten := by
  intro fuel
  induction fuel with
  | zero => intro st h; exact h
  | succ f ih =>
    intro st h
    rcases fetchLoop_succ_spec pageOp target_count max_pages f st with
      ⟨-, heq⟩ | ⟨-, ⟨-, heq⟩ | ⟨p, -, -, ⟨-, heq⟩ | ⟨-, heq⟩⟩⟩
    · rw [heq]; exact h
    · rw [heq]; exact h
    · rw [heq]
      apply ih
      rw [LoopState.mergePage_all_videos, LoopState.mergePage_merged,
        List.flatten_append, h]
      simp
    · rw [heq]
      rw [LoopState.mergePage_all_videos, LoopState.mergePage_merged,
        List.flatten_append, h]
      simp

/-! ## Claim theorems -/

/-- C1 counterexample: with a one-record upstream page carrying
`has_more = true`, `target_count = 1` and `max_pages = 1`, the loop merges
one page, so `pages_fetched = 1 ≥ max_pages` and
`len(collected) = 1 ≥ target_count`, yet the returned `has_more` is
`false` — refuting the claim that `has_more` equals
`(pagesFetched ≥ maxPages) AND (len(collected) ≥ targetCount)`. -/
theorem C1_counterexample :
    (1 : Int) ≤ ((runLoop onePageOp 1 1).pages_fetched : Int) ∧
    (1 : Int) ≤ ((runLoop onePageOp 1 1).all_videos.length : Int) ∧
    (get_hashtag_posts onePageOp 1 1).map PaginatedResult.has_more =
      some false := by
  decide

/-- C1 (amended): whenever `get_hashtag_posts` returns a non-absent
result, its `has_more` flag is true exactly when
`pages_fetched < max_pages` AND `len(all_videos) ≥ target_count` — the
source's literal condition on line 167 uses `<`, not `≥`, on the page
count. -/
theorem C1_has_more_rule {α : Type}
    (pageOp : Int → Int → Option (PaginatedResult α))
    (target_count max_pages : Int) (r : PaginatedResult α)
    (h : get_hashtag_posts pageOp target_count max_pages = some r) :
    r.has_more = true ↔
      (((runLoop pageOp target_count max_pages).pages_fetched : Int) <
          max_pages ∧
        target_count ≤
          ((runLoop pageOp target_count max_pages).all_videos.length :
            Int)) := by
  simp only [get_hashtag_posts] at h
  split at h
  · cases h
  · cases h
    simp

/-- C1 witness: the amended rule evaluated at the one-page upstream with
`target_count = 1`, `max_pages = 1`. -/
theorem C1_witness :
    ({ videos := [0], cursor := 5, has_more := false, total_fetched := 1 } :
        PaginatedResult Nat).has_more = true ↔
      (((runLoop onePageOp 1 1).pages_fetched : Int) < 1 ∧
        (1 : Int) ≤ ((runLoop onePageOp 1 1).all_videos.length : Int)) :=
  C1_has_more_rule onePageOp 1 1 _ (by decide)

/-- C2 counterexample: in the 50-record scenario
(`target_count = 50`, `max_pages = 10`, pages of 20, 20 and 10 records
with `has_more = false` on the third) the returned result's `has_more` is
`true`, not `false` as claimed, because line 167 computes
`pages_fetched < max_pages and len(all_videos) >= target_count`, which is
`3 < 10 and 50 >= 50`. -/
theorem C2_counterexample :
    (get_hashtag_posts scenarioPageOp 50 10).map PaginatedResult.has_more ≠
      some false ∧
    (get_hashtag_posts scenarioPageOp 50 10).map PaginatedResult.has_more =
      some true := by
  decide

/-- C2 (amended): in the 50-record scenario, `get_hashtag_posts` returns
exactly 50 records after exactly 3 page calls, with `has_more = true`. -/
theorem C2_scenario :
    (get_hashtag_posts scenarioPageOp 50 10).map
        (fun r => (r.videos.length, r.has_more)) = some (50, true) ∧
    (runLoop scenarioPageOp 50 10).calls = 3 := by
  decide

/-- C3 counterexample: a non-2xx response whose JSON body is
`{"message": null}` yields an envelope with `success = false` and
`error = None`, because `response_data.get("message", ...)` returns the
stored `None` — refuting the claim that `success == false` always implies
a non-null `error` string. -/
theorem C3_counterexample :
    (_make_request (.response false 404
        (some { message := some none }))).success = false ∧
    (_make_request (.response false 404
        (some { message := some none }))).error = none := by
  decide

/-- C3 (amended): every envelope built by `_make_request` has
`error = None` exactly when `success = true` or the response body carried
an explicit `{"message": null}` entry; in particular `success = true`
implies `error = None`, and `success = false` implies a non-null `error`
string except in the null-message case. -/
theorem C3_error_rule (o : RequestOutcome) :
    (_make_request o).error = none ↔
      ((_make_request o).success = true ∨ o.hasNullMessage) := by
  cases o with
  | requestError detail =>
    simp [_make_request, RequestOutcome.hasNullMessage]
  | otherError detail =>
    simp [_make_request, RequestOutcome.hasNullMessage]
  | response is_success status_code body =>
    cases body with
    | none =>
      cases is_success <;>
        simp [_make_request, RequestOutcome.hasNullMessage]
    | some b =>
      cases is_success with
      | true => simp [_make_request, RequestOutcome.hasNullMessage]
      | false =>
        cases hmsg : b.message with
        | none =>
          simp [_make_request, RequestOutcome.hasNullMessage, hmsg]
        | some v =>
          cases v with
          | none =>
            simp [_make_request, RequestOutcome.hasNullMessage, hmsg]
          | some s =>
            simp [_make_request, RequestOutcome.hasNullMessage, hmsg]

/-- C7: for every transport-level failure detail, `_make_request` returns
the envelope `{success: false, error: "Request failed: <detail>",
status_code: None}` (and, being a total function of the outcome, never
propagates the exception). -/
theorem C7_transport_failure (detail : String) :
    _make_request (.requestError detail) =
      { success := false, data := none,
        error := some ("Request failed: " ++ detail),
        status_code := none } := rfl

/-- C4: for every target count, every non-negative page cap and every
page operation, the accumulation loop of `get_hashtag_posts` invokes the
page operation at most `max_pages` times. -/
theorem C4_calls_bounded {α : Type}
    (pageOp : Int → Int → Option (PaginatedResult α))
    (target_count max_pages : Int) (h : 0 ≤ max_pages) :
    ((runLoop pageOp target_count max_pages).calls : Int) ≤ max_pages := by
  have hle := fetchLoop_calls_le pageOp target_count max_pages
    max_pages.toNat
    { all_videos := [], cursor := 0, pages_fetched := 0, calls := 0,
      merged := [] }
  have hcalls0 :
      ({ all_videos := ([] : List α), cursor := 0, pages_fetched := 0,
         calls := 0, merged := [] } : LoopState α).calls = 0 := rfl
  rw [hcalls0, Nat.zero_add] at hle
  have hrun : runLoop pageOp target_count max_pages =
      fetchLoop pageOp target_count max_pages max_pages.toNat
        { all_videos := [], cursor := 0, pages_fetched := 0, calls := 0,
          merged := [] } := rfl
  rw [hrun]
  have htn : (max_pages.toNat : Int) = max_pages := Int.toNat_of_nonneg h
  omega

/-- C4 witness: the bound evaluated at the 50-record scenario upstream
with `max_pages = 10`. -/
theorem C4_witness :
    ((runLoop scenarioPageOp 50 10).calls : Int) ≤ 10 :=
  C4_calls_bounded scenarioPageOp 50 10 (by decide)

/-- C5: with positive target and page cap, if the first page call returns
absent or a page with zero records, `get_hashtag_posts` returns `None`
and the page operation is invoked exactly once.  The first call requests
`min 20 target_count` records at cursor 0. -/
theorem C5_empty_first_page {α : Type}
    (pageOp : Int → Int → Option (PaginatedResult α))
    (target_count max_pages : Int)
    (htc : 0 < target_count) (hmp : 0 < max_pages)
    (hfirst : pageOp (min 20 target_count) 0 = none ∨
      ∃ p, pageOp (min 20 target_count) 0 = some p ∧
        p.videos.isEmpty = true) :
    get_hashtag_posts pageOp target_count max_pages = none ∧
    (runLoop pageOp target_count max_pages).calls = 1 := by
  obtain ⟨k, hk⟩ : ∃ k, max_pages.toNat = k + 1 :=
    ⟨max_pages.toNat - 1, by omega⟩
  have hinit : ∀ st : LoopState α,
      st = { all_videos := [], cursor := 0, pages_fetched := 0, calls := 0,
             merged := [] } →
      fetchLoop pageOp target_count max_pages (k + 1) st =
        { st with calls := st.calls + 1 } := by
    intro st hst
    rcases fetchLoop_succ_spec pageOp target_count max_pages k st with
      ⟨hng, -⟩ | ⟨-, ⟨-, heq⟩ | ⟨p, hpage, hnonempty, -⟩⟩
    · exfalso
      apply hng
      rw [hst]
      constructor
      · simpa using htc
      · simpa using hmp
    · exact heq
    · exfalso
      have hargs : min 20 (target_count - (st.all_videos.length : Int)) =
          min 20 target_count := by
        rw [hst]; simp
      have hcur : st.cursor = 0 := by rw [hst]
      rw [hargs, hcur] at hpage
      rcases hfirst with hnone | ⟨q, hq, hqempty⟩
      · rw [hnone] at hpage; cases hpage
      · rw [hq] at hpage
        cases hpage
        rw [hnonempty] at hqempty
        cases hqempty
  have hrun : runLoop pageOp target_count max_pages =
      { all_videos := ([] : List α), cursor := 0, pages_fetched := 0,
        calls := 1, merged := [] } := by
    unfold runLoop
    rw [hk, hinit _ rfl]
  constructor
  · simp only [get_hashtag_posts, hrun]
    rfl
  · rw [hrun]

/-- C5 witness: the claim evaluated at an upstream that never returns a
page, with `target_count = 5`, `max_pages = 2`. -/
theorem C5_witness :
    get_hashtag_posts nonePageOp 5 2 = none ∧
    (runLoop nonePageOp 5 2).calls = 1 :=
  C5_empty_first_page nonePageOp 5 2 (by decide) (by decide) (Or.inl rfl)

/-- C6: for every caller-supplied count, the count actually sent upstream
by `get_hashtag_posts_page` is `min(count, 20)`, and the outcome of the
call is exactly the outcome for the clamped count — the request is
silently clamped, never rejected. -/
theorem C6_count_clamped {α β : Type} (request : Int → Int → APIEnvelope β)
    (decode : β → DecodeResult (HashtagPostsResponse α))
    (count cursor : Int) :
    (get_hashtag_posts_page request decode count cursor).2 =
      min count 20 ∧
    (get_hashtag_posts_page request decode count cursor).1 =
      (get_hashtag_posts_page request decode (min count 20) cursor).1 := by
  have hm : min (min count 20) 20 = min count 20 := by
    rw [min_assoc, min_self]
  constructor
  · rfl
  · simp only [get_hashtag_posts_page, hm]

/-- C8: whenever `get_hashtag_posts` returns a non-absent result, its
video list is exactly the concatenation, in page-arrival order, of the
video lists of the pages the loop merged — no reordering, no
deduplication. -/
theorem C8_concatenation {α : Type}
    (pageOp : Int → Int → Option (PaginatedResult α))
    (target_count max_pages : Int) (r : PaginatedResult α)
    (h : get_hashtag_posts pageOp target_count max_pages = some r) :
    r.videos = (runLoop pageOp target_count max_pages).merged.flatten := by
  have hj := fetchLoop_join_invariant pageOp target_count max_pages
    max_pages.toNat
    { all_videos := [], cursor := 0, pages_fetched := 0, calls := 0,
      merged := [] } rfl
  simp only [get_hashtag_posts] at h
  split at h
  · cases h
  · cases h
    exact hj

/-- C8 witness: the concatenation property evaluated at the one-page
upstream with `target_count = 1`, `max_pages = 1`. -/
theorem C8_witness :
    ({ videos := [0], cursor := 5, has_more := false, total_fetched := 1 } :
        PaginatedResult Nat).videos =
      (runLoop onePageOp 1 1).merged.flatten :=
  C8_concatenation onePageOp 1 1 _ (by decide)

/-- C9: the single-page and info operations return absent (`None`)
whenever the transport envelope has `success = false`, or its `data` is
missing or falsy, or the provider decode raises, or the provider result
code is non-zero, or the inner payload is missing or (for the info
operation) fails to decode; in every such case the decode exception is
absorbed rather than propagated. -/
theorem C9_failures_absent {α β γ ι : Type}
    (request : Int → Int → APIEnvelope β)
    (decode : β → DecodeResult (HashtagPostsResponse α))
    (count cursor : Int)
    (response : APIEnvelope β)
    (decodeOuter : β → DecodeResult (TikTokAPIResponse γ))
    (decodeInfo : γ → DecodeResult ι)
    (hpage : (request (min count 20) cursor).success = false ∨
      (request (min count 20) cursor).data = none ∨
      (∃ b, (request (min count 20) cursor).data = some b ∧
        (decode b = .exn ∨
         ∃ pr, decode b = .ok pr ∧ (pr.code ≠ 0 ∨ pr.data = none))))
    (hinfo : response.success = false ∨ response.data = none ∨
      (∃ b, response.data = some b ∧
        (decodeOuter b = .exn ∨
         ∃ tr, decodeOuter b = .ok tr ∧
           (tr.code ≠ 0 ∨ tr.data = none ∨
            ∃ d, tr.data = some d ∧ decodeInfo d = .exn)))) :
    (get_hashtag_posts_page request decode count cursor).1 = none ∧
    get_hashtag_info response decodeOuter decodeInfo = none := by
  constructor
  · rcases hpage with hs | hd | ⟨b, hb, hexn | ⟨pr, hpr, hcode | hdata⟩⟩
    · simp [get_hashtag_posts_page, hs]
    · simp [get_hashtag_posts_page, hd]
    · simp [get_hashtag_posts_page, hb, hexn]
    · simp [get_hashtag_posts_page, hb, hpr, hcode]
    · simp [get_hashtag_posts_page, hb, hpr, hdata]
  · rcases hinfo with hs | hd | ⟨b, hb, hexn |
      ⟨tr, htr, hcode | hdata | ⟨d, hdd, hinner⟩⟩⟩
    · simp [get_hashtag_info, hs]
    · simp [get_hashtag_info, hd]
    · simp [get_hashtag_info, hb, hexn]
    · simp [get_hashtag_info, hb, htr, hcode]
    · simp [get_hashtag_info, hb, htr, hdata]
    · simp [get_hashtag_info, hb, htr, hdd, hinner]

/-- C9 witness: both operations evaluated on a failed envelope
(`success = false`). -/
theorem C9_witness :
    (get_hashtag_posts_page
        (fun _ _ => ({ success := false, data := none } : APIEnvelope Nat))
        (fun _ => (.exn : DecodeResult (HashtagPostsResponse Nat)))
        20 0).1 = none ∧
    get_hashtag_info ({ success := false, data := none } : APIEnvelope Nat)
      (fun _ => (.exn : DecodeResult (TikTokAPIResponse Nat)))
      (fun _ => (.exn : DecodeResult Nat)) = none :=
  C9_failures_absent
    (fun _ _ => ({ success := false, data := none } : APIEnvelope Nat))
    (fun _ => (.exn : DecodeResult (HashtagPostsResponse Nat))) 20 0
    ({ success := false, data := none } : APIEnvelope Nat)
    (fun _ => (.exn : DecodeResult (TikTokAPIResponse Nat)))
    (fun _ => (.exn : DecodeResult Nat))
    (Or.inl rfl) (Or.inl rfl)

/-- C10: whenever `target_count ≤ 0` or `max_pages ≤ 0`, the loop guard
fails before the first iteration, so the page operation is never invoked,
no page is merged, and `get_hashtag_posts` returns `None`. -/
theorem C10_nonpositive_inputs {α : Type}
    (pageOp : Int → Int → Option (PaginatedResult α))
    (target_count max_pages : Int)
    (h : target_count ≤ 0 ∨ max_pages ≤ 0) :
    get_hashtag_posts pageOp target_count max_pages = none ∧
    (runLoop pageOp target_count max_pages).calls = 0 ∧
    (runLoop pageOp target_count max_pages).pages_fetched = 0 := by
  have hrun : runLoop pageOp target_count max_pages =
      { all_videos := ([] : List α), cursor := 0, pages_fetched := 0,
        calls := 0, merged := [] } := by
    unfold runLoop
    apply fetchLoop_guard_false
    rintro ⟨h1, h2⟩
    simp only [List.length_nil, Nat.cast_zero] at h1 h2
    rcases h with hle | hle
    · omega
    · omega
  refine ⟨?_, ?_, ?_⟩
  · simp only [get_hashtag_posts, hrun]
    rfl
  · rw [hrun]
  · rw [hrun]

/-- C10 witness: the claim evaluated at `target_count = 0`,
`max_pages = 5` with the one-page upstream. -/
theorem C10_witness :
    get_hashtag_posts onePageOp 0 5 = none ∧
    (runLoop onePageOp 0 5).calls = 0 ∧
    (runLoop onePageOp 0 5).pages_fetched = 0 :=
  C10_nonpositive_inputs onePageOp 0 5 (Or.inl (by decide))

end ReactAgentSample
